import Mathlib

set_option maxRecDepth 8000

/-!
Shallow embedding of the ESP32Media ingestion pipeline
(src/src/data_model.cpp, src/src/data_model.h, the consumer in src/src/main.cpp).

Byte streams are modelled as `List Char` (the repository's wire format is
ASCII / UTF-8 text).  JSON documents (ArduinoJson `deserializeJson`) are
modelled by an executable recursive-descent parser producing `JVal`;
numbers are stored as rationals together with an `isFloat` tag mirroring
ArduinoJson's integer/float distinction (the tag is what `is<int>()`
inspects, hence what the `| default` operator uses).
-/

/-- Raster constants from data_model.h: ARTWORK_WIDTH * ARTWORK_HEIGHT * 2 = 12800. -/
def ARTWORK_RGB565_SIZE : Nat := 80 * 80 * 2

/-- Queue limit from data_model.h. -/
def MAX_QUEUE_ITEMS : Nat := 5

/-- Exact rational numeric values, kept as an unnormalized numerator /
positive-denominator pair (built only from integer arithmetic so that every
operation reduces in the kernel).  `toRat` gives the mathematical value. -/
structure RatQ where
  num : Int
  den : Nat
deriving DecidableEq

/-- The mathematical value of a `RatQ`. -/
def RatQ.toRat (x : RatQ) : ℚ := (x.num : ℚ) / (x.den : ℚ)

def RatQ.zero : RatQ := { num := 0, den := 1 }

def RatQ.one : RatQ := { num := 1, den := 1 }

/-- JSON values as stored by ArduinoJson.  `jnum isFloat q`: `isFloat` is true when
the literal had a fraction or exponent (ArduinoJson stores such values as floats,
and `is<int>()` is false for them). -/
inductive JVal where
  | jnull : JVal
  | jbool : Bool → JVal
  | jnum : Bool → RatQ → JVal
  | jstr : List Char → JVal
  | jarr : List JVal → JVal
  | jobj : List (List Char × JVal) → JVal

/-- JSON whitespace. -/
def isWsChar (c : Char) : Bool := c = ' ' || c = '\t' || c = '\n' || c = '\r'

def skipWs (cs : List Char) : List Char := cs.dropWhile isWsChar

def isHexDigitChar (c : Char) : Bool :=
  c.isDigit || ('a' ≤ c && c ≤ 'f') || ('A' ≤ c && c ≤ 'F')

def hexVal (c : Char) : Nat :=
  if c.isDigit then c.toNat - 48
  else if 'a' ≤ c ∧ c ≤ 'f' then c.toNat - 87
  else if 'A' ≤ c ∧ c ≤ 'F' then c.toNat - 55
  else 0

/-- Body of a JSON string after the opening quote; returns the decoded
characters and the remaining input (after the closing quote). -/
def parseStringBody : Nat → List Char → List Char → Option (List Char × List Char)
  | 0, _, _ => none
  | fuel+1, cs, acc =>
    match cs with
    | [] => none
    | '"' :: rest => some (acc.reverse, rest)
    | '\\' :: e :: rest =>
      match e with
      | '"' => parseStringBody fuel rest ('"' :: acc)
      | '\\' => parseStringBody fuel rest ('\\' :: acc)
      | '/' => parseStringBody fuel rest ('/' :: acc)
      | 'n' => parseStringBody fuel rest ('\n' :: acc)
      | 't' => parseStringBody fuel rest ('\t' :: acc)
      | 'r' => parseStringBody fuel rest ('\r' :: acc)
      | 'b' => parseStringBody fuel rest (Char.ofNat 8 :: acc)
      | 'f' => parseStringBody fuel rest (Char.ofNat 12 :: acc)
      | 'u' =>
        match rest with
        | a :: b :: c :: d :: rest2 =>
          if isHexDigitChar a && isHexDigitChar b && isHexDigitChar c && isHexDigitChar d then
            let code := ((hexVal a * 16 + hexVal b) * 16 + hexVal c) * 16 + hexVal d
            parseStringBody fuel rest2 (Char.ofNat code :: acc)
          else none
        | _ => none
      | _ => none
    | c :: rest => parseStringBody fuel rest (c :: acc)

def digitsToNat (ds : List Char) : Nat := ds.foldl (fun a c => a * 10 + (c.toNat - 48)) 0

/-- JSON number literal.  Returns the value (exact, as a rational) and whether the
literal is a float (fraction or exponent present). -/
def parseNumber (cs : List Char) : Option (JVal × List Char) :=
  let (neg, cs1) := match cs with
    | '-' :: rest => (true, rest)
    | _ => (false, cs)
  let ds := cs1.takeWhile Char.isDigit
  if ds.isEmpty then none
  else
    let cs2 := cs1.drop ds.length
    let (fds, cs3) := match cs2 with
      | '.' :: rest =>
        let f := rest.takeWhile Char.isDigit
        (f, rest.drop f.length)
      | _ => ([], cs2)
    if cs2 ≠ cs3 ∧ fds.isEmpty then none
    else
      let (hasExp, expNeg, eds, cs4) := match cs3 with
        | 'e' :: '-' :: rest => (true, true, rest.takeWhile Char.isDigit, (rest.dropWhile Char.isDigit))
        | 'e' :: '+' :: rest => (true, false, rest.takeWhile Char.isDigit, (rest.dropWhile Char.isDigit))
        | 'e' :: rest => (true, false, rest.takeWhile Char.isDigit, (rest.dropWhile Char.isDigit))
        | 'E' :: '-' :: rest => (true, true, rest.takeWhile Char.isDigit, (rest.dropWhile Char.isDigit))
        | 'E' :: '+' :: rest => (true, false, rest.takeWhile Char.isDigit, (rest.dropWhile Char.isDigit))
        | 'E' :: rest => (true, false, rest.takeWhile Char.isDigit, (rest.dropWhile Char.isDigit))
        | _ => (false, false, [], cs3)
      if hasExp ∧ eds.isEmpty then none
      else
        let mant : Nat := digitsToNat ds * 10 ^ fds.length + digitsToNat fds
        let e := digitsToNat eds
        let numMag : Nat := if hasExp ∧ ¬expNeg then mant * 10 ^ e else mant
        let den : Nat := if expNeg then 10 ^ fds.length * 10 ^ e else 10 ^ fds.length
        let num : Int := if neg then -(numMag : Int) else (numMag : Int)
        let isFloat : Bool := !fds.isEmpty || hasExp
        some (.jnum isFloat { num := num, den := den }, cs4)

mutual

def parseValue : Nat → List Char → Option (JVal × List Char)
  | 0, _ => none
  | fuel+1, cs0 =>
    let cs := skipWs cs0
    if "null".data.isPrefixOf cs then some (.jnull, cs.drop 4)
    else if "true".data.isPrefixOf cs then some (.jbool true, cs.drop 4)
    else if "false".data.isPrefixOf cs then some (.jbool false, cs.drop 5)
    else
      match cs with
      | [] => none
      | c :: rest =>
        if c = '"' then
          match parseStringBody (rest.length + 1) rest [] with
          | some (s, rest2) => some (.jstr s, rest2)
          | none => none
        else if c = '[' then parseArrayItems fuel rest
        else if c = '{' then parseObjMembers fuel rest
        else if c = '-' || c.isDigit then parseNumber cs
        else none

def parseArrayItems : Nat → List Char → Option (JVal × List Char)
  | 0, _ => none
  | fuel+1, cs0 =>
    match skipWs cs0 with
    | ']' :: rest => some (.jarr [], rest)
    | cs => parseArrayLoop fuel cs []

def parseArrayLoop : Nat → List Char → List JVal → Option (JVal × List Char)
  | 0, _, _ => none
  | fuel+1, cs, acc =>
    match parseValue fuel cs with
    | none => none
    | some (v, rest) =>
      match skipWs rest with
      | ',' :: rest2 => parseArrayLoop fuel rest2 (v :: acc)
      | ']' :: rest2 => some (.jarr (v :: acc).reverse, rest2)
      | _ => none

def parseObjMembers : Nat → List Char → Option (JVal × List Char)
  | 0, _ => none
  | fuel+1, cs0 =>
    match skipWs cs0 with
    | '}' :: rest => some (.jobj [], rest)
    | cs => parseObjLoop fuel cs []

def parseObjLoop : Nat → List Char → List (List Char × JVal) → Option (JVal × List Char)
  | 0, _, _ => none
  | fuel+1, cs, acc =>
    match skipWs cs with
    | '"' :: rest =>
      match parseStringBody (rest.length + 1) rest [] with
      | none => none
      | some (k, rest2) =>
        match skipWs rest2 with
        | ':' :: rest3 =>
          match parseValue fuel rest3 with
          | none => none
          | some (v, rest4) =>
            match skipWs rest4 with
            | ',' :: rest5 => parseObjLoop fuel rest5 ((k, v) :: acc)
            | '}' :: rest5 => some (.jobj ((k, v) :: acc).reverse, rest5)
            | _ => none
        | _ => none
    | _ => none

end

/-- Model of ArduinoJson `deserializeJson`: parse one JSON document from the
line (trailing bytes after the root value are ignored, as ArduinoJson stops
at the end of the document).  The fuel is amply sized; pool-capacity
(`NoMemory`) failures of `DynamicJsonDocument` are not modelled. -/
def parseJson (s : List Char) : Option JVal :=
  match parseValue (4 * s.length + 16) s with
  | some (v, _) => some v
  | none => none

/-- First index of `needle` in `hay` starting at offset `i`, if any. -/
def strIndexOfAux (hay needle : List Char) (i : Nat) : Option Nat :=
  match hay with
  | [] => if needle = [] then some i else none
  | _ :: rest => if needle.isPrefixOf hay then some i else strIndexOfAux rest needle (i + 1)

/-- Model of Arduino `String::indexOf`: first index of the substring, or -1. -/
def strIndexOf (hay needle : List Char) : Int :=
  match strIndexOfAux hay needle 0 with
  | some i => (i : Int)
  | none => -1

/-- Characters removed by Arduino `String::trim` (isspace). -/
def isSpaceByte (c : Char) : Bool :=
  c = ' ' || c = '\t' || c = '\n' || c = '\r' || c = Char.ofNat 11 || c = Char.ofNat 12

/-- Model of Arduino `String::trim`. -/
def trimArduino (l : List Char) : List Char :=
  ((l.dropWhile isSpaceByte).reverse.dropWhile isSpaceByte).reverse

/-- Model of `safeStrCopy` (data_model.cpp lines 45-51): the characters written
before the terminating NUL into a destination of `dstSize` bytes.
`n = min (src.length) (dstSize - 1)` characters are copied.  (For `dstSize = 0`
the C function returns without writing; we return the empty content.) -/
def safeStrCopy (dstSize : Nat) (src : List Char) : List Char :=
  if dstSize = 0 then []
  else src.take (min src.length (dstSize - 1))

/-- The full byte content written by `safeStrCopy` including the NUL terminator. -/
def safeStrCopyBytes (dstSize : Nat) (src : List Char) : List Char :=
  if dstSize = 0 then [] else safeStrCopy dstSize src ++ ['\x00']

def intToChars (i : Int) : List Char :=
  if i < 0 then '-' :: Nat.toDigits 10 i.natAbs else Nat.toDigits 10 i.toNat

/-- One-decimal fixed formatting of a nonnegative rational (round half up):
the digits of `floor (q * 10 + 1/2)` split around the decimal point. -/
def formatFix1Core (q : RatQ) : List Char :=
  let n : Nat := (q.num.toNat * 20 + q.den) / (2 * q.den)
  Nat.toDigits 10 (n / 10) ++ ('.' :: Nat.toDigits 10 (n % 10))

/-- Model of `snprintf` formatting with `%.1f` for the process-memory figure:
one decimal digit, rounding half away from zero (exact for the inputs the
host sends, which are single-decimal percentages). -/
def formatFix1 (q : RatQ) : List Char :=
  if q.num < 0 then '-' :: formatFix1Core { num := -q.num, den := q.den }
  else formatFix1Core q

mutual

/-- Simplified model of ArduinoJson `serializeJson` (used only on the legacy
`cpu_top5_process` fallback path, where the produced text is immediately
truncated into a 32-byte field; no claim depends on the exact digits of
float serialization, modelled here with one decimal place). -/
def serializeJVal : JVal → List Char
  | .jnull => "null".data
  | .jbool true => "true".data
  | .jbool false => "false".data
  | .jnum false q => intToChars q.num
  | .jnum true q => formatFix1 q
  | .jstr s => '"' :: (s ++ ['"'])
  | .jarr xs => '[' :: (serializeJValList xs ++ [']'])
  | .jobj kvs => '{' :: (serializeJValObj kvs ++ ['}'])

def serializeJValList : List JVal → List Char
  | [] => []
  | v :: rest => serializeJVal v ++ (',' :: serializeJValList rest)

def serializeJValObj : List (List Char × JVal) → List Char
  | [] => []
  | (k, v) :: rest => ('"' :: (k ++ ('"' :: ':' :: serializeJVal v))) ++ (',' :: serializeJValObj rest)

end

/-! ### Data model (data_model.h) -/

/-- Queue item for upcoming tracks (data_model.h).  String fields hold the
bytes before the NUL terminator; the char-array capacities (64/16/48/48/48)
govern the `safeStrCopy` calls that fill them. -/
structure QueueItem where
  id : List Char
  source : List Char
  name : List Char
  artist : List Char
  album : List Char
  duration : Nat
  isLocal : Bool
deriving DecidableEq

/-- `memset(&item, 0, sizeof(QueueItem))`. -/
def QueueItem.zero : QueueItem :=
  { id := [], source := [], name := [], artist := [], album := [], duration := 0, isLocal := false }

/-- Playlist context info (data_model.h); capacities 64/48/48. -/
structure PlaylistInfo where
  id : List Char
  name : List Char
  snapshotId : List Char
  totalTracks : Nat
  isPublic : Bool
  isCollaborative : Bool
  hasImage : Bool
deriving DecidableEq

/-- `memset(&msg.playlist, 0, sizeof(msg.playlist))`. -/
def PlaylistInfo.zero : PlaylistInfo :=
  { id := [], name := [], snapshotId := [], totalTracks := 0,
    isPublic := false, isCollaborative := false, hasImage := false }

/-- Discord user in voice channel (data_model.h; never written by the decoder). -/
structure DiscordUser where
  name : List Char
  muted : Bool
  deafened : Bool
  speaking : Bool
deriving DecidableEq

def DiscordUser.zero : DiscordUser :=
  { name := [], muted := false, deafened := false, speaking := false }

/-- Discord voice call state (data_model.h; never written by the decoder). -/
structure DiscordState where
  inCall : Bool
  channelName : List Char
  selfMuted : Bool
  selfDeafened : Bool
  userCount : Nat
  users : List DiscordUser
deriving DecidableEq

def DiscordState.zero : DiscordState :=
  { inCall := false, channelName := [], selfMuted := false, selfDeafened := false,
    userCount := 0, users := List.replicate 5 DiscordUser.zero }

/-- `SnapshotMsg` (data_model.h).  Field `repeat` of the C struct is named
`repeatMode` here because `repeat` is a Lean keyword.  String fields hold the
bytes before the NUL terminator; their C capacities are:
procs 5×32, title/artist/album 64, source 16, trackUri 80. -/
structure SnapshotMsg where
  cpu : RatQ
  mem : RatQ
  gpu : RatQ
  procCount : Nat
  procs : List (List Char)
  procPids : List Int
  hasMedia : Bool
  title : List Char
  artist : List Char
  album : List Char
  source : List Char
  trackUri : List Char
  position : Int
  duration : Int
  isPlaying : Bool
  shuffle : Bool
  repeatMode : Nat
  isLiked : Bool
  hasArtwork : Bool
  artworkUpdated : Bool
  hasQueue : Bool
  queueLen : Nat
  queue : List QueueItem
  hasPlaylist : Bool
  playlist : PlaylistInfo
  hasDiscord : Bool
  discord : DiscordState
deriving DecidableEq

/-- An all-zero `SnapshotMsg`, used as one concrete stand-in for the
uninitialized stack contents of `SnapshotMsg msg;` in the transport tasks
(the theorems quantify over that initial value where it matters). -/
def SnapshotMsg.mzero : SnapshotMsg :=
  { cpu := RatQ.zero, mem := RatQ.zero, gpu := RatQ.zero, procCount := 0,
    procs := List.replicate 5 [], procPids := List.replicate 5 0,
    hasMedia := false, title := [], artist := [], album := [], source := [],
    trackUri := [], position := 0, duration := 0, isPlaying := false,
    shuffle := false, repeatMode := 0, isLiked := false,
    hasArtwork := false, artworkUpdated := false,
    hasQueue := false, queueLen := 0, queue := List.replicate 5 QueueItem.zero,
    hasPlaylist := false, playlist := PlaylistInfo.zero,
    hasDiscord := false, discord := DiscordState.zero }

/-! ### Artwork buffer and decoder (data_model.cpp lines 16-77) -/

/-- The global artwork state: `gArtworkRgb565` (12800 bytes), `gArtworkNew`,
`gLastArtworkHash` (uint32). -/
structure ArtworkState where
  buf : List Nat
  isNew : Bool
  lastHash : Nat
deriving DecidableEq

/-- `quickHash` (data_model.cpp lines 22-30): FNV-1a over at most the first 100
bytes, xor-ed with the length; all 32-bit arithmetic.  Characters are taken
mod 256 as the C code reads raw bytes. -/
def quickHash (str : List Char) (len : Nat) : Nat :=
  let maxLen := if len > 100 then 100 else len
  let h := (str.take maxLen).foldl
    (fun h c => ((h ^^^ (c.toNat % 256)) * 16777619) % 4294967296) 2166136261
  h ^^^ (len % 4294967296)

/-- mbedtls base64 decode map: 0-63 for data characters, 64 for `=`, 127 invalid. -/
def b64DecMap (c : Char) : Nat :=
  if 'A' ≤ c ∧ c ≤ 'Z' then c.toNat - 65
  else if 'a' ≤ c ∧ c ≤ 'z' then c.toNat - 97 + 26
  else if '0' ≤ c ∧ c ≤ '9' then c.toNat - 48 + 52
  else if c = '+' then 62
  else if c = '/' then 63
  else if c = '=' then 64
  else 127

/-- First validation pass of `mbedtls_base64_decode`: counts data characters
(`n`, including padding) and padding characters (`j`); rejects invalid
characters, data after padding, more than two `=`, and spaces not followed by
a newline or the end of input.  Fuel-driven; callers supply ample fuel. -/
def b64FirstPass : Nat → List Char → Nat → Nat → Option (Nat × Nat)
  | 0, _, _, _ => none
  | _+1, [], n, j => some (n, j)
  | fuel+1, c :: rest, n, j =>
    if c = ' ' then
      match rest.dropWhile (fun x => x = ' ') with
      | [] => some (n, j)
      | '\n' :: tail => b64FirstPass fuel ('\n' :: tail) n j
      | '\r' :: '\n' :: tail => b64FirstPass fuel ('\r' :: '\n' :: tail) n j
      | _ => none
    else if c = '\n' then b64FirstPass fuel rest n j
    else if c = '\r' then
      match rest with
      | '\n' :: rest2 => b64FirstPass fuel rest2 n j
      | _ => none
    else if c = '=' then
      if j + 1 > 2 then none else b64FirstPass fuel rest (n + 1) (j + 1)
    else
      let d := b64DecMap c
      if d = 127 then none
      else if d < 64 ∧ j ≠ 0 then none
      else b64FirstPass fuel rest (n + 1) j

/-- Second pass of `mbedtls_base64_decode`: decode complete groups of four
data characters; `j` starts at 3 and drops by one per `=`; a trailing partial
group is not written. -/
def b64SecondPass : Nat → List Char → List Nat
  | j, a :: b :: c :: d :: rest =>
    let vs := [b64DecMap a, b64DecMap b, b64DecMap c, b64DecMap d]
    let j' := j - (vs.filter (fun v => v = 64)).length
    let x := vs.foldl (fun x v => (x <<< 6) ||| (v &&& 63)) 0
    ((if j' > 0 then [(x >>> 16) &&& 255] else []) ++
     (if j' > 1 then [(x >>> 8) &&& 255] else []) ++
     (if j' > 2 then [x &&& 255] else [])) ++ b64SecondPass j' rest
  | _, _ => []

/-- Model of `mbedtls_base64_decode` with destination capacity `dlen`: `none`
for a validation error or an output that would exceed `dlen` (in both cases
the real function returns nonzero without writing to the destination);
otherwise the decoded bytes (the bytes actually written, `*olen` of them). -/
def mbedtls_base64_decode (dlen : Nat) (src : List Char) : Option (List Nat) :=
  match b64FirstPass (src.length + 1) src 0 0 with
  | none => none
  | some (n, j) =>
    if n = 0 then some []
    else
      let n' := 6 * (n >>> 3) + ((6 * (n &&& 7) + 7) >>> 3)
      if dlen < n' - j then none
      else some (b64SecondPass 3 (src.filter (fun c => !(c = '\r' || c = '\n' || c = ' '))))

/-- `decodeArtworkB64` (data_model.cpp lines 54-77).  The decode writes
directly into the global raster buffer, so a successful decode of the wrong
length still overwrites the first `outLen` bytes of the raster; only the
hash and the freshness flag are withheld in that case. -/
def decodeArtworkB64 (b64 : List Char) (b64Len : Nat) (st : ArtworkState) :
    Bool × ArtworkState :=
  let h := quickHash b64 b64Len
  if h = st.lastHash then (false, st)
  else
    match mbedtls_base64_decode ARTWORK_RGB565_SIZE b64 with
    | none => (false, st)
    | some outBytes =>
      let buf' := outBytes ++ st.buf.drop outBytes.length
      if outBytes.length ≠ ARTWORK_RGB565_SIZE then (false, { st with buf := buf' })
      else (true, { buf := buf', isNew := true, lastHash := h })

/-! ### JSON accessors modelling ArduinoJson variant conversions -/

def lookupKey : List (List Char × JVal) → List Char → Option JVal
  | [], _ => none
  | (k, v) :: rest, key => if k = key then some v else lookupKey rest key

/-- `doc["key"]` on an object (first member wins), `null`-like otherwise. -/
def objGet : JVal → List Char → Option JVal
  | .jobj kvs, key => lookupKey kvs key
  | _, _ => none

def containsKey (doc : JVal) (key : List Char) : Bool := (objGet doc key).isSome

/-- `variant | "default"`: the string value if the variant holds a string. -/
def strOr (v : Option JVal) (d : List Char) : List Char :=
  match v with
  | some (.jstr s) => s
  | _ => d

/-- `variant | 0`: the value if the variant holds an integer (ArduinoJson
`is<int>()` is false for floats). -/
def intOr (v : Option JVal) (d : Int) : Int :=
  match v with
  | some (.jnum false q) => q.num
  | _ => d

/-- `variant | 0.0f`: the numeric value (ints and floats both satisfy `is<float>()`). -/
def floatOr (v : Option JVal) (d : RatQ) : RatQ :=
  match v with
  | some (.jnum _ q) => q
  | _ => d

/-- `variant | false`. -/
def boolOr (v : Option JVal) (d : Bool) : Bool :=
  match v with
  | some (.jbool b) => b
  | _ => d

/-- `variant.as<float>()`: numbers yield their value, booleans 1/0, anything
else 0 (numeric strings are not modelled; no snapshot field depends on them). -/
def asFloat (v : Option JVal) : RatQ :=
  match v with
  | some (.jnum _ q) => q
  | some (.jbool b) => if b then RatQ.one else RatQ.zero
  | _ => RatQ.zero

/-! ### Snapshot decoder (`parse_json_into_msg`, data_model.cpp lines 80-282) -/

/-- The `proc_top5` loop (lines 140-160): walk the array, keep at most five
object entries, format `"%.1f%% %s"` of mem and display name into a 32-byte
buffer.  Returns the updated `procs`, `procPids` and the final `idx`. -/
def procFold : List JVal → List (List Char) → List Int → Nat →
    List (List Char) × List Int × Nat
  | [], procs, pids, idx => (procs, pids, idx)
  | v :: rest, procs, pids, idx =>
    if idx ≥ 5 then (procs, pids, idx)
    else
      match v with
      | .jobj kvs =>
        let o := JVal.jobj kvs
        let pid := intOr (objGet o "pid".data) 0
        let mem := floatOr (objGet o "mem".data) RatQ.zero
        let name := strOr (objGet o "name".data) []
        let display := strOr (objGet o "display_name".data) name
        let buf := (formatFix1 mem ++ ('%' :: ' ' :: display)).take 31
        procFold rest (procs.set idx (safeStrCopy 32 buf)) (pids.set idx pid) (idx + 1)
      | _ => procFold rest procs pids idx

/-- The legacy `cpu_top5_process` loop (lines 161-189): strings are taken
as-is, other variants serialized; the first `".exe"` occurrence is removed;
PIDs are unknown (0). -/
def legacyFold : List JVal → List (List Char) → List Int → Nat →
    List (List Char) × List Int × Nat
  | [], procs, pids, idx => (procs, pids, idx)
  | v :: rest, procs, pids, idx =>
    if idx ≥ 5 then (procs, pids, idx)
    else
      let line := match v with
        | .jstr s => s
        | _ => serializeJVal v
      let clean := match strIndexOfAux line ".exe".data 0 with
        | some p => line.take p ++ line.drop (p + 4)
        | none => line
      legacyFold rest (procs.set idx (safeStrCopy 32 clean)) (pids.set idx 0) (idx + 1)

/-- The media `queue` loop (lines 246-266): at most `MAX_QUEUE_ITEMS` object
entries; non-objects are skipped without consuming a slot. -/
def queueFold : List JVal → List QueueItem → Nat → List QueueItem × Nat
  | [], queue, idx => (queue, idx)
  | v :: rest, queue, idx =>
    if idx ≥ MAX_QUEUE_ITEMS then (queue, idx)
    else
      match v with
      | .jobj kvs =>
        let q := JVal.jobj kvs
        let item : QueueItem :=
          { id := safeStrCopy 64 (strOr (objGet q "id".data) [])
            source := safeStrCopy 16 (strOr (objGet q "source".data) "spotify".data)
            name := safeStrCopy 48 (strOr (objGet q "name".data) [])
            artist := safeStrCopy 48 (strOr (objGet q "artist".data) [])
            album := safeStrCopy 48 (strOr (objGet q "album".data) [])
            duration := ((intOr (objGet q "duration_seconds".data) 0) % 65536).toNat
            isLocal := boolOr (objGet q "is_local".data) false }
        queueFold rest (queue.set idx item) (idx + 1)
      | _ => queueFold rest queue idx

/-- The process-list branches (lines 139-190): `proc_top5` if present as an
array, else the legacy `cpu_top5_process` fallback; returns the new value of
`(msg.procs, msg.procPids, msg.procCount)` (unchanged from the zeroed
initial values when neither branch applies). -/
def parseProcsUpd (doc : JVal) (m1 : SnapshotMsg) : List (List Char) × List Int × Nat :=
  match objGet doc "proc_top5".data with
  | some (JVal.jarr items) => procFold items m1.procs m1.procPids 0
  | _ =>
    if containsKey doc "cpu_top5_process".data then
      match objGet doc "cpu_top5_process".data with
      | some (JVal.jarr items) => legacyFold items m1.procs m1.procPids 0
      | _ => (m1.procs, m1.procPids, m1.procCount)
    else (m1.procs, m1.procPids, m1.procCount)

/-- The optional `playlist` sub-object (lines 233-243): the new value of
`(msg.hasPlaylist, msg.playlist)`, unchanged unless the key holds an object. -/
def parsePlaylistUpd (md : JVal) (m1 : SnapshotMsg) : Bool × PlaylistInfo :=
  match objGet md "playlist".data with
  | some (JVal.jobj plkvs) =>
    let pl := JVal.jobj plkvs
    (true,
      { id := safeStrCopy 64 (strOr (objGet pl "id".data) []),
        name := safeStrCopy 48 (strOr (objGet pl "name".data) []),
        snapshotId := safeStrCopy 48 (strOr (objGet pl "snapshot_id".data) []),
        totalTracks := ((intOr (objGet pl "total_tracks".data) 0) % 65536).toNat,
        isPublic := boolOr (objGet pl "is_public".data) false,
        isCollaborative := boolOr (objGet pl "is_collaborative".data) false,
        hasImage := containsKey pl "image_thumb_jpg_b64".data &&
          !(strOr (objGet pl "image_thumb_jpg_b64".data) []).isEmpty })
  | _ => (m1.hasPlaylist, m1.playlist)

/-- The optional `queue` array (lines 246-266): the new value of
`(msg.hasQueue, msg.queue, msg.queueLen)`, unchanged unless the key holds an
array. -/
def parseQueueUpd (md : JVal) (m2 : SnapshotMsg) : Bool × List QueueItem × Nat :=
  match objGet md "queue".data with
  | some (JVal.jarr items) =>
    let r := queueFold items m2.queue 0
    (true, r.1, r.2)
  | _ => (m2.hasQueue, m2.queue, m2.queueLen)

/-- The optional `artwork_png_b64` decode (lines 269-278): the new value of
`(msg.hasArtwork, msg.artworkUpdated)` and the resulting artwork state. -/
def parseArtworkUpd (md : JVal) (m3 : SnapshotMsg) (art : ArtworkState) :
    Bool × Bool × ArtworkState :=
  match objGet md "artwork_png_b64".data with
  | some _ =>
    let b64 := strOr (objGet md "artwork_png_b64".data) []
    if b64.length > 0 then
      let r := decodeArtworkB64 b64 b64.length art
      (true, r.1, r.2)
    else (m3.hasArtwork, m3.artworkUpdated, art)
  | none => (m3.hasArtwork, m3.artworkUpdated, art)

/-- The optional `media` object (lines 213-279): strings through `safeStrCopy`
with the struct capacities, then the optional playlist object, queue array and
`artwork_png_b64` decode (which mutates the global artwork state). -/
def parseMedia (doc : JVal) (m : SnapshotMsg) (art : ArtworkState) :
    SnapshotMsg × ArtworkState :=
  match objGet doc "media".data with
  | some (JVal.jobj mdkvs) =>
    let md := JVal.jobj mdkvs
    let m1 := { m with
      title := safeStrCopy 64 (strOr (objGet md "title".data) "No media".data),
      artist := safeStrCopy 64 (strOr (objGet md "artist".data) []),
      album := safeStrCopy 64 (strOr (objGet md "album".data) []),
      source := safeStrCopy 16 (strOr (objGet md "source".data) []),
      position := intOr (objGet md "position_seconds".data) 0,
      duration := intOr (objGet md "duration_seconds".data) 0,
      isPlaying := boolOr (objGet md "is_playing".data) false,
      hasMedia := true }
    let pl := parsePlaylistUpd md m1
    let m2 := { m1 with hasPlaylist := pl.1, playlist := pl.2 }
    let qu := parseQueueUpd md m2
    let m3 := { m2 with hasQueue := qu.1, queue := qu.2.1, queueLen := qu.2.2 }
    let aw := parseArtworkUpd md m3 art
    ({ m3 with hasArtwork := aw.1, artworkUpdated := aw.2.1 }, aw.2.2)
  | _ => (m, art)

/-- `parse_json_into_msg` (data_model.cpp lines 80-282).  `msg0` stands for
the caller's uninitialized `SnapshotMsg msg;` — fields the C code never
assigns keep their incoming (garbage) values.  Returns the decoded snapshot
(`none` models returning `false`), the updated artwork state, and the UI
playing flag (the `ui_set_play_state` side effect of the ack branch). -/
def parse_json_into_msg (input : List Char) (msg0 : SnapshotMsg)
    (art : ArtworkState) (uiPlaying : Bool) :
    Option SnapshotMsg × ArtworkState × Bool :=
  if strIndexOf input "artwork_b64".data > 0 ∧ strIndexOf input "cpu_percent".data < 0 then
    match parseJson input with
    | none => (none, art, uiPlaying)
    | some doc =>
      if containsKey doc "artwork_b64".data then
        let b64 := strOr (objGet doc "artwork_b64".data) []
        if b64.length > 100 then
          (none, (decodeArtworkB64 b64 b64.length art).2, uiPlaying)
        else (none, art, uiPlaying)
      else (none, art, uiPlaying)
  else if strIndexOf input "\"ack\"".data > 0 then
    match parseJson input with
    | none => (none, art, uiPlaying)
    | some doc =>
      if containsKey doc "ack".data then
        let ackVal := strOr (objGet doc "ack".data) []
        if ackVal = "play".data then (none, art, true)
        else if ackVal = "pause".data then (none, art, false)
        else (none, art, uiPlaying)
      else (none, art, uiPlaying)
  else
    match parseJson input with
    | none => (none, art, uiPlaying)
    | some doc =>
      let cpu : RatQ :=
        if containsKey doc "cpu_percent_total".data then asFloat (objGet doc "cpu_percent_total".data)
        else if containsKey doc "cpu_percent".data then asFloat (objGet doc "cpu_percent".data)
        else RatQ.zero
      let m1 := { msg0 with
        cpu := cpu,
        mem := if containsKey doc "mem_percent".data then asFloat (objGet doc "mem_percent".data) else RatQ.zero,
        gpu := if containsKey doc "gpu_percent".data then asFloat (objGet doc "gpu_percent".data) else RatQ.zero,
        procCount := 0,
        procs := List.replicate 5 ([] : List Char),
        procPids := List.replicate 5 (0 : Int) }
      let pr := parseProcsUpd doc m1
      let m2 := { m1 with procs := pr.1, procPids := pr.2.1, procCount := pr.2.2 }
      let m3 := { m2 with
        hasMedia := false, hasArtwork := false, artworkUpdated := false,
        title := [], artist := [], album := [], source := [],
        position := 0, duration := 0, isPlaying := false,
        hasQueue := false, queueLen := 0,
        hasPlaylist := false, playlist := PlaylistInfo.zero,
        queue := List.replicate MAX_QUEUE_ITEMS QueueItem.zero }
      let r := parseMedia doc m3 art
      (some r.1, r.2, uiPlaying)

/-! ### Mailbox (data_model.cpp lines 317-323 and 463-467) -/

/-- `xQueueOverwrite` on the length-1 queue created by `data_model_init`
(`xQueueCreate(1, sizeof(SnapshotMsg))`): overwrite-always publish. -/
def xQueueOverwrite (slot : Option SnapshotMsg) (m : SnapshotMsg) : Option SnapshotMsg :=
  some m

/-- `data_model_try_dequeue` (lines 463-467): non-blocking `xQueueReceive`;
returns the taken snapshot (if any) and the queue contents afterwards. -/
def data_model_try_dequeue (slot : Option SnapshotMsg) :
    Option SnapshotMsg × Option SnapshotMsg :=
  match slot with
  | none => (none, none)
  | some m => (some m, none)

/-! ### Transport tasks' framing loop (serial_task lines 285-315, wifi_task lines 408-431) -/

/-- The cross-task shared state a transport task can affect: the snapshot
mailbox (`gSnapshotQueue`), the artwork buffer globals, and the play/pause
flag the ack branch pushes to the UI. -/
structure DMState where
  mailbox : Option SnapshotMsg
  art : ArtworkState
  uiPlaying : Bool
deriving DecidableEq

/-- Handling of one complete trimmed line: parse, and publish on success. -/
def processLine (msg0 : SnapshotMsg) (line : List Char) (st : DMState) : DMState :=
  match parse_json_into_msg line msg0 st.art st.uiPlaying with
  | (some msg, art', ui') =>
    { mailbox := xQueueOverwrite st.mailbox msg, art := art', uiPlaying := ui' }
  | (none, art', ui') => { st with art := art', uiPlaying := ui' }

/-- A transport task's private state: its line accumulation buffer plus the
shared state. -/
structure FeedState where
  buf : List Char
  dm : DMState
deriving DecidableEq

/-- One byte of the framing loop shared verbatim by `serial_task` and
`wifi_task`: newline completes a line (trim, length-gate > 5, parse/publish),
carriage returns are dropped, other bytes accumulate, and a buffer exceeding
65535 bytes is silently discarded. -/
def feedByte (msg0 : SnapshotMsg) (st : FeedState) (c : Char) : FeedState :=
  if c = '\n' then
    let line := trimArduino st.buf
    if line.length > 5 then { buf := [], dm := processLine msg0 line st.dm }
    else { buf := [], dm := st.dm }
  else if c = '\r' then st
  else
    let b := st.buf ++ [c]
    if b.length > 65535 then { st with buf := [] } else { st with buf := b }

/-- The byte handler of `serial_task` (data_model.cpp lines 289-311). -/
def serial_task_feed : SnapshotMsg → FeedState → Char → FeedState := feedByte

/-- The byte handler of `wifi_task` (data_model.cpp lines 409-431), textually
identical to the serial one. -/
def wifi_task_feed : SnapshotMsg → FeedState → Char → FeedState := feedByte

/-- Feeding a whole byte sequence through a transport task's framing loop. -/
def feedAll (msg0 : SnapshotMsg) (st : FeedState) (cs : List Char) : FeedState :=
  cs.foldl (feedByte msg0) st

/-! ### Concrete states and inputs used by the verification scenarios -/

/-- All-zero artwork state (fresh boot: zeroed raster, no pending image). -/
def art0 : ArtworkState :=
  { buf := List.replicate ARTWORK_RGB565_SIZE 0, isNew := false, lastHash := 0 }

/-- An artwork state holding a previously good image (all bytes 1). -/
def art1 : ArtworkState :=
  { buf := List.replicate ARTWORK_RGB565_SIZE 1, isNew := false, lastHash := 0 }

/-- A valid base64 payload (104 characters, decoding to 78 bytes, not 12800). -/
def cexB64 : List Char := List.replicate 104 'A'

/-- Another valid base64 payload of the wrong length (108 chars, 81 bytes). -/
def c3wB64 : List Char := List.replicate 108 'B'

def c3wArt : ArtworkState :=
  { buf := List.replicate ARTWORK_RGB565_SIZE 2, isNew := false, lastHash := 5 }

/-- A base64-looking artwork payload for the dedup scenario. -/
def c6b64 : List Char := "c2FtZUFydHdvcmtQYXlsb2Fk".data

/-- Artwork state whose stored hash already equals the hash of `c6b64`. -/
def c6st : ArtworkState :=
  { buf := List.replicate ARTWORK_RGB565_SIZE 7, isNew := false,
    lastHash := quickHash c6b64 c6b64.length }

/-- The spec's proc_top5 scenario input. -/
def line8 : List Char :=
  "\x7b\"cpu_percent_total\":42.5,\"mem_percent\":10,\"proc_top5\":[\x7b\"pid\":100,\"mem\":5.5,\"name\":\"a.exe\",\"display_name\":\"App A\"\x7d]\x7d".data

/-- A proc_top5 input with six entries (one more than the cap). -/
def line8six : List Char :=
  "\x7b\"proc_top5\":[\x7b\"pid\":1\x7d,\x7b\"pid\":2\x7d,\x7b\"pid\":3\x7d,\x7b\"pid\":4\x7d,\x7b\"pid\":5\x7d,\x7b\"pid\":6\x7d]\x7d".data

/-- A snapshot line whose media object carries shuffle/repeat/is_liked/track_uri. -/
def lineC4 : List Char :=
  "\x7b\"cpu_percent_total\":1,\"media\":\x7b\"title\":\"T\",\"shuffle\":true,\"repeat\":2,\"is_liked\":true,\"track_uri\":\"spotify:track:abc\"\x7d\x7d".data

/-- A syntactically invalid line (fails JSON parsing). -/
def lineBad : List Char := "not json at all".data

/-- A media-rich snapshot line exercising long strings, queue and playlist. -/
def lineC7 : List Char :=
  ("\x7b\"cpu_percent_total\":3,\"media\":\x7b\"title\":\"" ++
   String.mk (List.replicate 90 'T') ++
   "\",\"artist\":\"A\",\"queue\":[\x7b\"id\":\"" ++
   String.mk (List.replicate 90 'Q') ++
   "\",\"name\":\"N\"\x7d],\"playlist\":\x7b\"id\":\"P\",\"name\":\"" ++
   String.mk (List.replicate 90 'L') ++ "\"\x7d\x7d\x7d").data

/-- Legacy artwork control lines (the hex chunk exactly fills the raster:
25600 hex digits, i.e. 12800 bytes of 0xFF). -/
def artStartLine : List Char := "ART_START".data

def artChunkLineFF : List Char := "ART_CHUNK:".data ++ List.replicate 25600 'F'

def artEndLine : List Char := "ART_END".data

/-- Shared-state start: empty mailbox, zeroed artwork, UI paused. -/
def dm0 : DMState := { mailbox := none, art := art0, uiPlaying := false }

/-- Transport-task start state: empty framing buffer over `dm0`. -/
def fs0 : FeedState := { buf := [], dm := dm0 }

/-- A snapshot differing from `SnapshotMsg.mzero` (used as the second of two
distinct published snapshots). -/
def mzeroB : SnapshotMsg := { SnapshotMsg.mzero with procCount := 1 }

/-- Framer state mid-line with a short ("hi") accumulated buffer. -/
def fsShort : FeedState := { buf := "hi".data, dm := dm0 }

/-- Overflow junk for the framer scenario: 65536 bytes, no newline. -/
def junk9 : List Char := List.replicate 65536 'x'

/-- A well-formed snapshot line following the junk. -/
def good9 : List Char := "\x7b\"cpu_percent_total\":7\x7d".data

/-! ### Supporting lemmas -/

theorem safeStrCopy_length (cap : Nat) (src : List Char) :
    (safeStrCopy cap src).length ≤ cap - 1 := by
  unfold safeStrCopy
  split
  · simp
  · simp [List.length_take]

theorem safeStrCopyBytes_spec (cap : Nat) (src : List Char) (h : 0 < cap) :
    (safeStrCopyBytes cap src).length ≤ cap ∧
    (safeStrCopyBytes cap src).getLast? = some '\x00' := by
  unfold safeStrCopyBytes
  rw [if_neg (by omega)]
  constructor
  · have := safeStrCopy_length cap src
    simp [List.length_append]
    omega
  · simp


theorem parse_json_into_msg_fail (input : List Char) (msg0 : SnapshotMsg)
    (art : ArtworkState) (ui : Bool) (h : parseJson input = none) :
    parse_json_into_msg input msg0 art ui = (none, art, ui) := by
  unfold parse_json_into_msg
  split_ifs <;> simp [h]

theorem processLine_fail (msg0 : SnapshotMsg) (line : List Char) (st : DMState)
    (h : parseJson line = none) : processLine msg0 line st = st := by
  unfold processLine
  rw [parse_json_into_msg_fail _ _ _ _ h]

theorem parseValue_head_none (fuel : Nat) (c : Char) (rest : List Char)
    (hws : isWsChar c = false)
    (hn : ('n' == c) = false) (ht : ('t' == c) = false) (hf : ('f' == c) = false)
    (hq : ¬ c = '"') (hl : ¬ c = '[') (hb : ¬ c = '{') (hm : ¬ c = '-')
    (hd : c.isDigit = false) :
    parseValue (fuel + 1) (c :: rest) = none := by
  unfold parseValue
  have h4 : "null".data = ['n', 'u', 'l', 'l'] := rfl
  have h5 : "true".data = ['t', 'r', 'u', 'e'] := rfl
  have h6 : "false".data = ['f', 'a', 'l', 's', 'e'] := rfl
  simp [skipWs, List.dropWhile_cons, hws, h4, h5, h6, List.isPrefixOf, hn, ht, hf,
    hq, hl, hb, hm, hd]

theorem parseJson_head_none (c : Char) (rest : List Char)
    (hws : isWsChar c = false)
    (hn : ('n' == c) = false) (ht : ('t' == c) = false) (hf : ('f' == c) = false)
    (hq : ¬ c = '"') (hl : ¬ c = '[') (hb : ¬ c = '{') (hm : ¬ c = '-')
    (hd : c.isDigit = false) :
    parseJson (c :: rest) = none := by
  unfold parseJson
  have hfe : 4 * (c :: rest).length + 16 = (4 * (c :: rest).length + 15) + 1 := by omega
  rw [hfe, parseValue_head_none _ c rest hws hn ht hf hq hl hb hm hd]

/-- Any line starting with the letter A (all legacy artwork control lines do)
fails JSON parsing and is processed without any state change. -/
theorem processLine_A_line (msg0 : SnapshotMsg) (st : DMState) (rest : List Char) :
    processLine msg0 ('A' :: rest) st = st :=
  processLine_fail _ _ _ (parseJson_head_none 'A' rest (by decide) (by decide)
    (by decide) (by decide) (by decide) (by decide) (by decide) (by decide) (by decide))

/-! ### Claim theorems -/

/-- C1: the Mailbox is a single-slot latest-wins channel — after publishing A
then B with no intervening take, a non-blocking take returns B (never A) and
clears the slot; a take on an empty slot returns nothing (without blocking),
leaving the slot empty. -/
theorem mailbox_latest_wins (s : Option SnapshotMsg) (A B : SnapshotMsg) (hAB : A ≠ B) :
    data_model_try_dequeue (xQueueOverwrite (xQueueOverwrite s A) B) = (some B, none) ∧
    (data_model_try_dequeue (xQueueOverwrite (xQueueOverwrite s A) B)).1 ≠ some A ∧
    data_model_try_dequeue (none : Option SnapshotMsg) = (none, none) := by
  refine ⟨rfl, ?_, rfl⟩
  simp [data_model_try_dequeue, xQueueOverwrite]
  exact Ne.symm hAB

theorem mailbox_latest_wins_witness :
    SnapshotMsg.mzero ≠ mzeroB ∧
    data_model_try_dequeue (xQueueOverwrite (xQueueOverwrite none SnapshotMsg.mzero) mzeroB)
      = (some mzeroB, none) := by
  have hne : SnapshotMsg.mzero ≠ mzeroB := by decide
  exact ⟨hne, (mailbox_latest_wins none SnapshotMsg.mzero mzeroB hne).1⟩

/-- C2: a line that is not syntactically valid JSON makes the decoder return a
parse failure, and processing it publishes nothing: the mailbox (indeed the
whole shared state) is unchanged. -/
theorem invalid_line_preserves_mailbox (line : List Char) (msg0 : SnapshotMsg)
    (art : ArtworkState) (ui : Bool) (st : DMState) (h : parseJson line = none) :
    parse_json_into_msg line msg0 art ui = (none, art, ui) ∧
    processLine msg0 line st = st ∧
    (processLine msg0 line st).mailbox = st.mailbox :=
  ⟨parse_json_into_msg_fail line msg0 art ui h,
   processLine_fail msg0 line st h,
   by rw [processLine_fail msg0 line st h]⟩

theorem invalid_line_preserves_mailbox_witness :
    parseJson lineBad = none ∧
    parse_json_into_msg lineBad SnapshotMsg.mzero art0 false = (none, art0, false) ∧
    processLine SnapshotMsg.mzero lineBad dm0 = dm0 := by
  have h : parseJson lineBad = none := rfl
  have := invalid_line_preserves_mailbox lineBad SnapshotMsg.mzero art0 false dm0 h
  exact ⟨h, this.1, this.2.1⟩

/-- C6: re-submitting an artwork payload whose quick hash equals the stored
hash is a complete no-op: decode skipped, raster, hash and freshness flag all
unchanged ("unchanged" reported as false). -/
theorem artwork_dedup_noop (b64 : List Char) (st : ArtworkState)
    (h : quickHash b64 b64.length = st.lastHash) :
    decodeArtworkB64 b64 b64.length st = (false, st) := by
  unfold decodeArtworkB64
  rw [if_pos h]

theorem artwork_dedup_noop_witness :
    decodeArtworkB64 c6b64 c6b64.length c6st = (false, c6st) :=
  artwork_dedup_noop c6b64 c6st rfl

/-- C10: a completed line whose trimmed length is five characters or fewer is
dropped by both transport tasks without classification or decode: the buffer
is reset and the mailbox, artwork buffer and freshness flag are untouched. -/
theorem short_line_silently_dropped (msg0 : SnapshotMsg) (st : FeedState)
    (h : (trimArduino st.buf).length ≤ 5) :
    serial_task_feed msg0 st '\n' = { buf := [], dm := st.dm } ∧
    wifi_task_feed msg0 st '\n' = { buf := [], dm := st.dm } := by
  have hfeed : feedByte msg0 st '\n' = { buf := [], dm := st.dm } := by
    unfold feedByte
    rw [if_pos rfl, if_neg (by omega)]
  exact ⟨hfeed, hfeed⟩

theorem short_line_silently_dropped_witness :
    (trimArduino fsShort.buf).length ≤ 5 ∧
    serial_task_feed SnapshotMsg.mzero fsShort '\n' = { buf := [], dm := fsShort.dm } ∧
    wifi_task_feed SnapshotMsg.mzero fsShort '\n' = { buf := [], dm := fsShort.dm } := by
  have h : (trimArduino fsShort.buf).length ≤ 5 := by decide
  have := short_line_silently_dropped SnapshotMsg.mzero fsShort h
  exact ⟨h, this.1, this.2⟩

/-- C3 (amended): a failed artwork decode (invalid base64) leaves the whole
artwork state untouched, and a successful decode of the wrong byte count
leaves the stored hash and the freshness flag untouched (the raster prefix,
however, has already been overwritten in place — see the counterexample). -/
theorem artwork_failed_decode_keeps_hash_and_flag (b64 : List Char) (st : ArtworkState) :
    (mbedtls_base64_decode ARTWORK_RGB565_SIZE b64 = none →
      decodeArtworkB64 b64 b64.length st = (false, st)) ∧
    (∀ bs, mbedtls_base64_decode ARTWORK_RGB565_SIZE b64 = some bs →
      bs.length ≠ ARTWORK_RGB565_SIZE →
      (decodeArtworkB64 b64 b64.length st).1 = false ∧
      (decodeArtworkB64 b64 b64.length st).2.lastHash = st.lastHash ∧
      (decodeArtworkB64 b64 b64.length st).2.isNew = st.isNew) := by
  by_cases hh : quickHash b64 b64.length = st.lastHash
  · exact ⟨fun _ => by simp [decodeArtworkB64, hh],
      fun bs _ _ => by simp [decodeArtworkB64, hh]⟩
  · cases hdec : mbedtls_base64_decode ARTWORK_RGB565_SIZE b64 with
    | none =>
      exact ⟨fun _ => by simp [decodeArtworkB64, hh, hdec],
        fun bs hbs _ => Option.noConfusion hbs⟩
    | some out =>
      refine ⟨fun hnone => Option.noConfusion hnone, fun bs hbs hlen => ?_⟩
      cases hbs
      simp [decodeArtworkB64, hh, hdec, hlen]

theorem artwork_failed_decode_witness :
    (decodeArtworkB64 c3wB64 c3wB64.length c3wArt).1 = false ∧
    (decodeArtworkB64 c3wB64 c3wB64.length c3wArt).2.lastHash = c3wArt.lastHash ∧
    (decodeArtworkB64 c3wB64 c3wB64.length c3wArt).2.isNew = c3wArt.isNew := by
  cases hdec : mbedtls_base64_decode ARTWORK_RGB565_SIZE c3wB64 with
  | none =>
    have hres := (artwork_failed_decode_keeps_hash_and_flag c3wB64 c3wArt).1 hdec
    rw [hres]
    exact ⟨rfl, rfl, rfl⟩
  | some bs =>
    have hmap : (mbedtls_base64_decode ARTWORK_RGB565_SIZE c3wB64).map List.length
        = some 81 := by decide
    rw [hdec] at hmap
    simp at hmap
    have hlen : bs.length ≠ ARTWORK_RGB565_SIZE := by
      rw [hmap]
      decide
    exact (artwork_failed_decode_keeps_hash_and_flag c3wB64 c3wArt).2 bs hdec hlen

/-- C3 counterexample: a valid base64 artwork payload of the wrong decoded
length (104 chars, 78 bytes) is rejected — hash and freshness flag stay
untouched — but the raster's first bytes HAVE been overwritten by the decode,
so the previous raster contents are not left untouched as the claim states. -/
theorem artwork_wrong_size_overwrites_raster :
    (decodeArtworkB64 cexB64 cexB64.length art1).1 = false ∧
    (decodeArtworkB64 cexB64 cexB64.length art1).2.lastHash = art1.lastHash ∧
    (decodeArtworkB64 cexB64 cexB64.length art1).2.isNew = false ∧
    (decodeArtworkB64 cexB64 cexB64.length art1).2.buf ≠ art1.buf := by
  refine ⟨by decide, by decide, by decide, ?_⟩
  intro hEq
  have h0 : (decodeArtworkB64 cexB64 cexB64.length art1).2.buf.head? = some 0 := by decide
  rw [hEq] at h0
  exact absurd h0 (by decide)

/-- C5 (amended): the code has no legacy-artwork path at all — `ART_START`,
`ART_CHUNK:<hex>` and `ART_END` lines contain no artwork/ack marker and fail
JSON parsing, so each is dropped with the mailbox, the artwork raster, the
stored hash and the freshness flag all unchanged; the raster is never
populated from the hex payload. -/
theorem legacy_art_lines_are_ignored (msg0 : SnapshotMsg) (st : DMState) (hex : List Char) :
    processLine msg0 artStartLine st = st ∧
    processLine msg0 ("ART_CHUNK:".data ++ hex) st = st ∧
    processLine msg0 artEndLine st = st ∧
    processLine msg0 artEndLine
      (processLine msg0 ("ART_CHUNK:".data ++ hex) (processLine msg0 artStartLine st)) = st := by
  have h1 : processLine msg0 artStartLine st = st := by
    have he : artStartLine = 'A' :: "RT_START".data := rfl
    rw [he]
    exact processLine_A_line msg0 st _
  have h2 : processLine msg0 ("ART_CHUNK:".data ++ hex) st = st := by
    have he : "ART_CHUNK:".data ++ hex = 'A' :: ("RT_CHUNK:".data ++ hex) := rfl
    rw [he]
    exact processLine_A_line msg0 st _
  have h3 : processLine msg0 artEndLine st = st := by
    have he : artEndLine = 'A' :: "RT_END".data := rfl
    rw [he]
    exact processLine_A_line msg0 st _
  refine ⟨h1, h2, h3, ?_⟩
  rw [h1]
  have h2' : processLine msg0 ("ART_CHUNK:".data ++ hex) st = st := h2
  rw [h2', h3]

/-- C5 counterexample: processing the full legacy sequence (with 25600 hex
digits `F`, i.e. exactly 12800 bytes of 0xFF) from a zeroed start state leaves
the state unchanged: the freshness flag stays false and the raster does not
end up holding the hex decode (12800 bytes of 255). -/
theorem legacy_art_sequence_not_populated :
    processLine SnapshotMsg.mzero artEndLine
      (processLine SnapshotMsg.mzero artChunkLineFF
        (processLine SnapshotMsg.mzero artStartLine dm0)) = dm0 ∧
    dm0.art.isNew = false ∧
    dm0.art.buf ≠ List.replicate ARTWORK_RGB565_SIZE 255 := by
  have h1 : processLine SnapshotMsg.mzero artStartLine dm0 = dm0 := by
    have he : artStartLine = 'A' :: "RT_START".data := rfl
    rw [he]
    exact processLine_A_line _ _ _
  have h2 : processLine SnapshotMsg.mzero artChunkLineFF dm0 = dm0 := by
    have he : artChunkLineFF = 'A' :: ("RT_CHUNK:".data ++ List.replicate 25600 'F') := rfl
    rw [he]
    exact processLine_A_line _ _ _
  have h3 : processLine SnapshotMsg.mzero artEndLine dm0 = dm0 := by
    have he : artEndLine = 'A' :: "RT_END".data := rfl
    rw [he]
    exact processLine_A_line _ _ _
  refine ⟨by rw [h1, h2, h3], rfl, ?_⟩
  intro hEq
  have h0 : dm0.art.buf.head? = some 0 := by decide
  rw [hEq] at h0
  exact absurd h0 (by decide)

/-! ### Line framer lemmas (overflow and recovery) -/

theorem feedByte_other (msg0 : SnapshotMsg) (st : FeedState) (c : Char)
    (h1 : ¬ c = '\n') (h2 : ¬ c = '\r') :
    feedByte msg0 st c =
      if st.buf.length + 1 > 65535 then { st with buf := [] }
      else { st with buf := st.buf ++ [c] } := by
  unfold feedByte
  rw [if_neg h1, if_neg h2]
  simp [List.length_append]

theorem feedByte_newline_buf (msg0 : SnapshotMsg) (st : FeedState) :
    (feedByte msg0 st '\n').buf = [] := by
  by_cases h : (trimArduino st.buf).length > 5 <;> simp [feedByte, h]

theorem feedAll_append (msg0 : SnapshotMsg) (st : FeedState) (a b : List Char) :
    feedAll msg0 st (a ++ b) = feedAll msg0 (feedAll msg0 st a) b :=
  List.foldl_append _ _ _ _

theorem feedAll_clean (msg0 : SnapshotMsg) (cs : List Char) :
    ∀ st : FeedState, (∀ c ∈ cs, ¬ c = '\n' ∧ ¬ c = '\r') → st.buf.length ≤ 65535 →
      (feedAll msg0 st cs).dm = st.dm ∧
      (feedAll msg0 st cs).buf.length = (st.buf.length + cs.length) % 65536 := by
  induction cs with
  | nil =>
    intro st _ hle
    refine ⟨rfl, ?_⟩
    simp only [feedAll, List.foldl_nil, List.length_nil]
    omega
  | cons c cs ih =>
    intro st h hle
    have hc := h c (List.mem_cons_self c cs)
    have hcs : ∀ x ∈ cs, ¬ x = '\n' ∧ ¬ x = '\r' :=
      fun x hx => h x (List.mem_cons_of_mem c hx)
    have hstep : feedAll msg0 st (c :: cs) = feedAll msg0 (feedByte msg0 st c) cs := rfl
    rw [hstep]
    by_cases hb : st.buf.length + 1 > 65535
    · have hfeed : feedByte msg0 st c = { st with buf := [] } := by
        rw [feedByte_other msg0 st c hc.1 hc.2, if_pos hb]
      rw [hfeed]
      obtain ⟨ihdm, ihlen⟩ := ih { st with buf := [] } hcs (by simp)
      refine ⟨ihdm, ?_⟩
      rw [ihlen]
      simp only [List.length_nil, List.length_cons]
      omega
    · have hfeed : feedByte msg0 st c = { st with buf := st.buf ++ [c] } := by
        rw [feedByte_other msg0 st c hc.1 hc.2, if_neg hb]
      rw [hfeed]
      obtain ⟨ihdm, ihlen⟩ := ih { st with buf := st.buf ++ [c] } hcs
        (by simp only [List.length_append, List.length_cons, List.length_nil]; omega)
      refine ⟨ihdm, ?_⟩
      rw [ihlen]
      simp only [List.length_append, List.length_cons, List.length_nil]
      omega

theorem feedAll_clean_content (msg0 : SnapshotMsg) (cs : List Char) :
    ∀ st : FeedState, (∀ c ∈ cs, ¬ c = '\n' ∧ ¬ c = '\r') →
      st.buf.length + cs.length ≤ 65535 →
      feedAll msg0 st cs = { st with buf := st.buf ++ cs } := by
  induction cs with
  | nil =>
    intro st _ _
    simp [feedAll]
  | cons c cs ih =>
    intro st h hle
    have hc := h c (List.mem_cons_self c cs)
    have hcs : ∀ x ∈ cs, ¬ x = '\n' ∧ ¬ x = '\r' :=
      fun x hx => h x (List.mem_cons_of_mem c hx)
    simp only [List.length_cons] at hle
    have hfeed : feedByte msg0 st c = { st with buf := st.buf ++ [c] } := by
      rw [feedByte_other msg0 st c hc.1 hc.2, if_neg (by omega)]
    have hstep : feedAll msg0 st (c :: cs) = feedAll msg0 (feedByte msg0 st c) cs := rfl
    rw [hstep, hfeed, ih { st with buf := st.buf ++ [c] } hcs
      (by simp only [List.length_append, List.length_cons, List.length_nil]; omega)]
    simp

theorem feed_line_from_empty (msg0 : SnapshotMsg) (st : FeedState) (good : List Char)
    (hbuf : st.buf = []) (hg : ∀ c ∈ good, ¬ c = '\n' ∧ ¬ c = '\r')
    (hgl : good.length ≤ 65535) :
    feedAll msg0 st (good ++ ['\n']) =
      if 5 < (trimArduino good).length
      then { buf := [], dm := processLine msg0 (trimArduino good) st.dm }
      else { buf := [], dm := st.dm } := by
  rw [feedAll_append, feedAll_clean_content msg0 good st hg (by rw [hbuf]; simpa)]
  have hb2 : ({ st with buf := st.buf ++ good } : FeedState) = { st with buf := good } := by
    rw [hbuf]
    simp
  rw [hb2]
  show feedByte msg0 { st with buf := good } '\n' = _
  by_cases hlen : (trimArduino good).length > 5
  · rw [if_pos hlen]
    simp [feedByte, hlen]
  · rw [if_neg hlen]
    simp [feedByte, hlen]

/-- C9: feeding more than the 65535-byte overflow cap without a newline
silently discards data (the retained buffer is strictly shorter than the
input, and the shared state is untouched), and a subsequent well-formed
newline-terminated line is still framed exactly and parsed correctly (it
reaches `processLine` verbatim, gated only by the short-line filter). -/
theorem framer_overflow_recovery (msg0 : SnapshotMsg) (st : FeedState) (junk good : List Char)
    (hbuf : st.buf = [])
    (hj : ∀ c ∈ junk, ¬ c = '\n' ∧ ¬ c = '\r') (hjl : 65535 < junk.length)
    (hg : ∀ c ∈ good, ¬ c = '\n' ∧ ¬ c = '\r') (hgl : good.length ≤ 65535) :
    (feedAll msg0 st junk).buf.length < junk.length ∧
    (feedAll msg0 st junk).dm = st.dm ∧
    feedAll msg0 st (junk ++ '\n' :: (good ++ ['\n'])) =
      (if 5 < (trimArduino good).length
       then { buf := [], dm := processLine msg0 (trimArduino good)
                (feedAll msg0 st (junk ++ ['\n'])).dm }
       else { buf := [], dm := (feedAll msg0 st (junk ++ ['\n'])).dm }) := by
  obtain ⟨hdm, hlen⟩ := feedAll_clean msg0 junk st hj (by rw [hbuf]; simp)
  refine ⟨?_, hdm, ?_⟩
  · rw [hlen, hbuf]
    simp
    omega
  · have hsplit : junk ++ '\n' :: (good ++ ['\n']) = (junk ++ ['\n']) ++ (good ++ ['\n']) := by
      simp
    rw [hsplit, feedAll_append]
    apply feed_line_from_empty msg0 _ good _ hg hgl
    rw [feedAll_append]
    exact feedByte_newline_buf msg0 _

theorem framer_overflow_recovery_witness :
    (feedAll SnapshotMsg.mzero fs0 junk9).buf.length < junk9.length ∧
    (feedAll SnapshotMsg.mzero fs0 junk9).dm = fs0.dm ∧
    feedAll SnapshotMsg.mzero fs0 (junk9 ++ '\n' :: (good9 ++ ['\n'])) =
      (if 5 < (trimArduino good9).length
       then { buf := [], dm := processLine SnapshotMsg.mzero (trimArduino good9)
                (feedAll SnapshotMsg.mzero fs0 (junk9 ++ ['\n'])).dm }
       else { buf := [], dm := (feedAll SnapshotMsg.mzero fs0 (junk9 ++ ['\n'])).dm }) := by
  apply framer_overflow_recovery
  · rfl
  · intro c hc
    have hrep : c ∈ List.replicate 65536 'x' := hc
    rw [List.mem_replicate] at hrep
    rw [hrep.2]
    exact ⟨by decide, by decide⟩
  · show 65535 < (List.replicate 65536 'x').length
    rw [List.length_replicate]
    omega
  · intro c hc
    refine ⟨fun h => ?_, fun h => ?_⟩ <;> (subst h; exact absurd hc (by decide))
  · decide

/-! ### Decoder never touches the playback-state fields -/

theorem parseMedia_preserves_playback (doc : JVal) (m : SnapshotMsg) (art : ArtworkState) :
    (parseMedia doc m art).1.shuffle = m.shuffle ∧
    (parseMedia doc m art).1.repeatMode = m.repeatMode ∧
    (parseMedia doc m art).1.isLiked = m.isLiked ∧
    (parseMedia doc m art).1.trackUri = m.trackUri := by
  simp only [parseMedia]
  split
  · simp
  · simp

/-- C4: the decoder never populates the media block's shuffle flag, repeat
mode, liked flag or track identifier — whatever snapshot it returns carries
those four fields unchanged from the caller's (uninitialized) input struct,
regardless of the shuffle / repeat / is_liked / track_uri keys of the media
object. -/
theorem playback_fields_never_populated (line : List Char) (msg0 : SnapshotMsg)
    (art : ArtworkState) (ui : Bool) (m : SnapshotMsg)
    (h : (parse_json_into_msg line msg0 art ui).1 = some m) :
    m.shuffle = msg0.shuffle ∧ m.repeatMode = msg0.repeatMode ∧
    m.isLiked = msg0.isLiked ∧ m.trackUri = msg0.trackUri := by
  simp only [parse_json_into_msg] at h
  split at h
  · exfalso
    split at h
    · simp at h
    · split at h
      · split at h <;> simp at h
      · simp at h
  · split at h
    · exfalso
      split at h
      · simp at h
      · split at h
        · split at h
          · simp at h
          · split at h <;> simp at h
        · simp at h
    · split at h
      · simp at h
      · simp only [] at h
        rw [Option.some_inj] at h
        subst h
        exact ⟨(parseMedia_preserves_playback _ _ _).1.trans (by simp),
          (parseMedia_preserves_playback _ _ _).2.1.trans (by simp),
          (parseMedia_preserves_playback _ _ _).2.2.1.trans (by simp),
          (parseMedia_preserves_playback _ _ _).2.2.2.trans (by simp)⟩

theorem playback_fields_never_populated_witness :
    (parse_json_into_msg lineC4 SnapshotMsg.mzero art0 false).1.map SnapshotMsg.shuffle
      = some false ∧
    (parse_json_into_msg lineC4 SnapshotMsg.mzero art0 false).1.map SnapshotMsg.repeatMode
      = some 0 ∧
    (parse_json_into_msg lineC4 SnapshotMsg.mzero art0 false).1.map SnapshotMsg.isLiked
      = some false ∧
    (parse_json_into_msg lineC4 SnapshotMsg.mzero art0 false).1.map SnapshotMsg.trackUri
      = some [] := by
  cases hp : (parse_json_into_msg lineC4 SnapshotMsg.mzero art0 false).1 with
  | none => exact absurd hp (by decide)
  | some m =>
    obtain ⟨h1, h2, h3, h4⟩ :=
      playback_fields_never_populated lineC4 SnapshotMsg.mzero art0 false m hp
    refine ⟨?_, ?_, ?_, ?_⟩ <;> simp only [Option.map_some']
    · rw [h1]; rfl
    · rw [h2]; rfl
    · rw [h3]; rfl
    · rw [h4]; rfl

/-- C8: decoding the spec's scenario input succeeds and yields cpu 42.5,
mem 10, one process entry displayed as "5.5% App A" with pid 100; a sixth
proc_top5 entry is ignored, not an error (procCount caps at 5). -/
theorem scenario_proc_top5_decodes :
    ((parse_json_into_msg line8 SnapshotMsg.mzero art0 false).1.map
      (fun m => m.cpu.toRat)) = some (85 / 2) ∧
    ((parse_json_into_msg line8 SnapshotMsg.mzero art0 false).1.map
      (fun m => m.mem.toRat)) = some 10 ∧
    ((parse_json_into_msg line8 SnapshotMsg.mzero art0 false).1.map
      (fun m => m.procCount)) = some 1 ∧
    ((parse_json_into_msg line8 SnapshotMsg.mzero art0 false).1.map
      (fun m => m.procs.get? 0)) = some (some "5.5% App A".data) ∧
    ((parse_json_into_msg line8 SnapshotMsg.mzero art0 false).1.map
      (fun m => m.procPids.get? 0)) = some (some (100 : Int)) ∧
    ((parse_json_into_msg line8six SnapshotMsg.mzero art0 false).1.map
      (fun m => m.procCount)) = some 5 := by
  have hcpu : (parse_json_into_msg line8 SnapshotMsg.mzero art0 false).1.map
      (fun m => m.cpu) = some { num := 425, den := 10 } := by decide
  have hmem : (parse_json_into_msg line8 SnapshotMsg.mzero art0 false).1.map
      (fun m => m.mem) = some { num := 10, den := 1 } := by decide
  refine ⟨?_, ?_, by decide, by decide, by decide, by decide⟩
  · have hco : (fun m : SnapshotMsg => m.cpu.toRat)
        = RatQ.toRat ∘ (fun m : SnapshotMsg => m.cpu) := rfl
    rw [hco, ← Option.map_map, hcpu]
    simp [RatQ.toRat]
    norm_num
  · have hco : (fun m : SnapshotMsg => m.mem.toRat)
        = RatQ.toRat ∘ (fun m : SnapshotMsg => m.mem) := rfl
    rw [hco, ← Option.map_map, hmem]
    simp [RatQ.toRat]

/-! ### String-bound lemmas for the decoder -/

theorem list_set_preserves {α : Type} (P : α → Prop) :
    ∀ (l : List α) (n : Nat) (b : α), (∀ x ∈ l, P x) → P b → ∀ x ∈ l.set n b, P x := by
  intro l
  induction l with
  | nil =>
    intro n b _ _ x hx
    simp at hx
  | cons a l ih =>
    intro n b hl hb x hx
    cases n with
    | zero =>
      rcases List.mem_cons.mp hx with h | h
      · rw [h]; exact hb
      · exact hl x (List.mem_cons_of_mem a h)
    | succ n =>
      rcases List.mem_cons.mp hx with h | h
      · rw [h]; exact hl a (List.mem_cons_self a l)
      · exact ih n b (fun y hy => hl y (List.mem_cons_of_mem a hy)) hb x h

theorem procFold_procs_bound :
    ∀ (items : List JVal) (procs : List (List Char)) (pids : List Int) (idx : Nat),
      (∀ p ∈ procs, p.length ≤ 31) →
      ∀ p ∈ (procFold items procs pids idx).1, p.length ≤ 31 := by
  intro items
  induction items with
  | nil =>
    intro procs pids idx h
    simpa [procFold] using h
  | cons v rest ih =>
    intro procs pids idx h
    simp only [procFold]
    split
    · simpa using h
    · split
      · exact ih _ _ _ (list_set_preserves _ _ _ _ h (safeStrCopy_length 32 _))
      · exact ih _ _ _ h

theorem legacyFold_procs_bound :
    ∀ (items : List JVal) (procs : List (List Char)) (pids : List Int) (idx : Nat),
      (∀ p ∈ procs, p.length ≤ 31) →
      ∀ p ∈ (legacyFold items procs pids idx).1, p.length ≤ 31 := by
  intro items
  induction items with
  | nil =>
    intro procs pids idx h
    simpa [legacyFold] using h
  | cons v rest ih =>
    intro procs pids idx h
    simp only [legacyFold]
    split
    · simpa using h
    · exact ih _ _ _ (list_set_preserves _ _ _ _ h (safeStrCopy_length 32 _))

/-- The bound every queue item must satisfy (capacities 64/16/48/48/48). -/
def QueueItemBounded (q : QueueItem) : Prop :=
  q.id.length ≤ 63 ∧ q.source.length ≤ 15 ∧ q.name.length ≤ 47 ∧
  q.artist.length ≤ 47 ∧ q.album.length ≤ 47

theorem queueFold_bound :
    ∀ (items : List JVal) (queue : List QueueItem) (idx : Nat),
      (∀ q ∈ queue, QueueItemBounded q) →
      ∀ q ∈ (queueFold items queue idx).1, QueueItemBounded q := by
  intro items
  induction items with
  | nil =>
    intro queue idx h
    simpa [queueFold] using h
  | cons v rest ih =>
    intro queue idx h
    simp only [queueFold]
    split
    · simpa using h
    · split
      · refine ih _ _ (list_set_preserves _ _ _ _ h ?_)
        exact ⟨safeStrCopy_length 64 _, safeStrCopy_length 16 _, safeStrCopy_length 48 _,
          safeStrCopy_length 48 _, safeStrCopy_length 48 _⟩
      · exact ih _ _ h

theorem parseProcsUpd_bound (doc : JVal) (m1 : SnapshotMsg)
    (h : ∀ p ∈ m1.procs, p.length ≤ 31) :
    ∀ p ∈ (parseProcsUpd doc m1).1, p.length ≤ 31 := by
  simp only [parseProcsUpd]
  split
  · exact procFold_procs_bound _ _ _ _ h
  · split
    · split
      · exact legacyFold_procs_bound _ _ _ _ h
      · simpa using h
    · simpa using h

theorem parseQueueUpd_bound (md : JVal) (m2 : SnapshotMsg)
    (h : ∀ q ∈ m2.queue, QueueItemBounded q) :
    ∀ q ∈ (parseQueueUpd md m2).2.1, QueueItemBounded q := by
  simp only [parseQueueUpd]
  split
  · exact queueFold_bound _ _ _ h
  · simpa using h

theorem parsePlaylistUpd_bound (md : JVal) (m1 : SnapshotMsg)
    (h : m1.playlist.id.length ≤ 63 ∧ m1.playlist.name.length ≤ 47 ∧
      m1.playlist.snapshotId.length ≤ 47) :
    (parsePlaylistUpd md m1).2.id.length ≤ 63 ∧
    (parsePlaylistUpd md m1).2.name.length ≤ 47 ∧
    (parsePlaylistUpd md m1).2.snapshotId.length ≤ 47 := by
  simp only [parsePlaylistUpd]
  split
  · exact ⟨safeStrCopy_length 64 _, safeStrCopy_length 48 _, safeStrCopy_length 48 _⟩
  · exact h

theorem parseMedia_bounds (doc : JVal) (m : SnapshotMsg) (art : ArtworkState)
    (ht : m.title.length ≤ 63) (ha : m.artist.length ≤ 63) (hal : m.album.length ≤ 63)
    (hs : m.source.length ≤ 15) (hp : ∀ p ∈ m.procs, p.length ≤ 31)
    (hq : ∀ q ∈ m.queue, QueueItemBounded q)
    (hpl : m.playlist.id.length ≤ 63 ∧ m.playlist.name.length ≤ 47 ∧
      m.playlist.snapshotId.length ≤ 47) :
    (parseMedia doc m art).1.title.length ≤ 63 ∧
    (parseMedia doc m art).1.artist.length ≤ 63 ∧
    (parseMedia doc m art).1.album.length ≤ 63 ∧
    (parseMedia doc m art).1.source.length ≤ 15 ∧
    (∀ p ∈ (parseMedia doc m art).1.procs, p.length ≤ 31) ∧
    (∀ q ∈ (parseMedia doc m art).1.queue, QueueItemBounded q) ∧
    (parseMedia doc m art).1.playlist.id.length ≤ 63 ∧
    (parseMedia doc m art).1.playlist.name.length ≤ 47 ∧
    (parseMedia doc m art).1.playlist.snapshotId.length ≤ 47 := by
  simp only [parseMedia]
  split
  · refine ⟨safeStrCopy_length 64 _, safeStrCopy_length 64 _, safeStrCopy_length 64 _,
      safeStrCopy_length 16 _, ?_, ?_, ?_⟩
    · simpa using hp
    · refine parseQueueUpd_bound _ _ ?_
      simpa using hq
    · refine parsePlaylistUpd_bound _ _ ?_
      simpa using hpl
  · exact ⟨ht, ha, hal, hs, hp, hq, hpl⟩

/-- C7: `safeStrCopy` never overflows — at most `capacity - 1` characters are
written and the destination is always NUL-terminated — and consequently every
string field of any snapshot the decoder produces respects its destination
capacity (procs 32, title/artist/album 64, source 16, queue id 64 / source 16 /
name, artist, album 48, playlist id 64 / name 48 / snapshot id 48).  The
decoder writes no other string field. -/
theorem decoder_strings_truncated_not_overflowed :
    (∀ (cap : Nat) (src : List Char),
      (safeStrCopy cap src).length ≤ cap - 1 ∧
      (0 < cap → (safeStrCopyBytes cap src).length ≤ cap ∧
        (safeStrCopyBytes cap src).getLast? = some '\x00')) ∧
    (∀ (line : List Char) (msg0 : SnapshotMsg) (art : ArtworkState) (ui : Bool)
        (m : SnapshotMsg),
      (parse_json_into_msg line msg0 art ui).1 = some m →
      m.title.length ≤ 63 ∧ m.artist.length ≤ 63 ∧ m.album.length ≤ 63 ∧
      m.source.length ≤ 15 ∧ (∀ p ∈ m.procs, p.length ≤ 31) ∧
      (∀ q ∈ m.queue, QueueItemBounded q) ∧
      m.playlist.id.length ≤ 63 ∧ m.playlist.name.length ≤ 47 ∧
      m.playlist.snapshotId.length ≤ 47) := by
  constructor
  · exact fun cap src => ⟨safeStrCopy_length cap src, safeStrCopyBytes_spec cap src⟩
  · intro line msg0 art ui m h
    simp only [parse_json_into_msg] at h
    split at h
    · exfalso
      split at h
      · simp at h
      · split at h
        · split at h <;> simp at h
        · simp at h
    · split at h
      · exfalso
        split at h
        · simp at h
        · split at h
          · split at h
            · simp at h
            · split at h <;> simp at h
          · simp at h
      · split at h
        · simp at h
        · simp only [] at h
          rw [Option.some_inj] at h
          subst h
          refine parseMedia_bounds _ _ _ (by simp) (by simp) (by simp) (by simp) ?_ ?_ ?_
          · show ∀ p ∈ (parseProcsUpd _ _).1, p.length ≤ 31
            refine parseProcsUpd_bound _ _ ?_
            intro p hp
            simp only [List.mem_replicate] at hp
            rw [hp.2]
            simp
          · intro q hq
            simp only [List.mem_replicate] at hq
            rw [hq.2]
            exact ⟨by simp [QueueItem.zero], by simp [QueueItem.zero], by simp [QueueItem.zero],
              by simp [QueueItem.zero], by simp [QueueItem.zero]⟩
          · exact ⟨by simp [PlaylistInfo.zero], by simp [PlaylistInfo.zero],
              by simp [PlaylistInfo.zero]⟩

theorem decoder_strings_truncated_witness :
    (safeStrCopy 32 (List.replicate 40 'x')).length ≤ 31 ∧
    (safeStrCopyBytes 32 (List.replicate 40 'x')).getLast? = some '\x00' ∧
    Option.elim ((parse_json_into_msg lineC7 SnapshotMsg.mzero art0 false).1) False
      (fun m => m.title.length ≤ 63 ∧ m.artist.length ≤ 63 ∧ m.album.length ≤ 63 ∧
        m.source.length ≤ 15 ∧ (∀ p ∈ m.procs, p.length ≤ 31) ∧
        (∀ q ∈ m.queue, QueueItemBounded q) ∧
        m.playlist.id.length ≤ 63 ∧ m.playlist.name.length ≤ 47 ∧
        m.playlist.snapshotId.length ≤ 47) := by
  refine ⟨(decoder_strings_truncated_not_overflowed.1 32 (List.replicate 40 'x')).1,
    ((decoder_strings_truncated_not_overflowed.1 32 (List.replicate 40 'x')).2
      (by decide)).2, ?_⟩
  cases hp : (parse_json_into_msg lineC7 SnapshotMsg.mzero art0 false).1 with
  | none => exact absurd hp (by decide)
  | some m =>
    simpa using
      decoder_strings_truncated_not_overflowed.2 lineC7 SnapshotMsg.mzero art0 false m hp
